import Mathlib

/-!
Shallow embedding of the stock-monitoring core of the Zack-Vision repository:
the circuit breaker (`src/scrapers/base.py`), the booster-box keyword filter
(`src/scrapers/base.py`, `src/config.py`), the diff/alert pipeline of the
scheduler (`src/services/scheduler.py`), the alert cooldown and product
persistence operations (`src/services/database.py`), and the dead-letter
queue retryable query (`src/services/dead_letter_queue.py`).

Timestamps (Python `datetime`) are modelled as rational numbers of seconds;
prices (Python `float`/`None`) as `Option ℚ`; database tables as lists of
row structures mirroring the SQLite columns.
-/

namespace ZackVision

/-! Section: Circuit breaker (`src/scrapers/base.py`, class `CircuitBreaker`) -/

/-- Embedding of `CircuitState` enum: CLOSED / OPEN / HALF_OPEN. -/
inductive CircuitState where
  | CLOSED
  | OPEN
  | HALF_OPEN
  deriving DecidableEq, Repr

/-- State of the `CircuitBreaker` dataclass: configuration fields
`failure_threshold` and `recovery_timeout` plus the mutable fields set in
`__post_init__` (`failures`, `last_failure_time`, `state`). -/
structure CircuitBreaker where
  failure_threshold : ℕ
  recovery_timeout : ℚ
  failures : ℕ
  last_failure_time : Option ℚ
  state : CircuitState
  deriving DecidableEq, Repr

namespace CircuitBreaker

/-- Dataclass default for `failure_threshold` (source: `failure_threshold: int = 5`). -/
def default_failure_threshold : ℕ := 5

/-- Dataclass default for `recovery_timeout` (source: `recovery_timeout: int = 60`). -/
def default_recovery_timeout : ℚ := 60

/-- Embedding of `CircuitBreaker(failure_threshold, recovery_timeout)` followed by
`__post_init__`: failures 0, no last failure, state CLOSED. -/
def init (threshold : ℕ) (timeout : ℚ) : CircuitBreaker :=
  { failure_threshold := threshold
    recovery_timeout := timeout
    failures := 0
    last_failure_time := none
    state := CircuitState.CLOSED }

/-- Embedding of `CircuitBreaker()` with the dataclass defaults, as constructed in
`BaseScraper.__init__` (`src/src/scrapers/base.py`, line 84). -/
def mkDefault : CircuitBreaker :=
  init default_failure_threshold default_recovery_timeout

/-- Embedding of `record_success`: reset `failures` to 0 and state to CLOSED. -/
def record_success (cb : CircuitBreaker) : CircuitBreaker :=
  { cb with failures := 0, state := CircuitState.CLOSED }

/-- Embedding of `record_failure` at time `now` (`datetime.now()`): increment `failures`,
stamp `last_failure_time`; when the count reaches `failure_threshold`, the
state becomes OPEN and `True` is returned. -/
def record_failure (cb : CircuitBreaker) (now : ℚ) : CircuitBreaker × Bool :=
  let f := cb.failures + 1
  if cb.failure_threshold ≤ f then
    ({ cb with failures := f, last_failure_time := some now,
               state := CircuitState.OPEN }, true)
  else
    ({ cb with failures := f, last_failure_time := some now }, false)

/-- Embedding of `can_execute` evaluated at time `now`: CLOSED is executable; OPEN is
executable (moving to HALF_OPEN) only once `now - last_failure_time` has
reached `recovery_timeout`; HALF_OPEN is executable. Returns the result
together with the possibly updated breaker. -/
def can_execute (cb : CircuitBreaker) (now : ℚ) : Bool × CircuitBreaker :=
  match cb.state with
  | CircuitState.CLOSED => (true, cb)
  | CircuitState.OPEN =>
      match cb.last_failure_time with
      | some t =>
          if cb.recovery_timeout ≤ now - t then
            (true, { cb with state := CircuitState.HALF_OPEN })
          else
            (false, cb)
      | none => (false, cb)
  | CircuitState.HALF_OPEN => (true, cb)

/-- A sequence of `record_failure` calls at the given times, in order,
with no interleaved `record_success`. -/
def applyFailures (cb : CircuitBreaker) (times : List ℚ) : CircuitBreaker :=
  times.foldl (fun acc t => (record_failure acc t).1) cb

/-- Breaker states reachable from a freshly constructed breaker by the three
operations of the class. -/
inductive Reach : CircuitBreaker → Prop where
  | init (threshold : ℕ) (timeout : ℚ) : Reach (init threshold timeout)
  | success {cb : CircuitBreaker} : Reach cb → Reach (record_success cb)
  | failure {cb : CircuitBreaker} (t : ℚ) : Reach cb → Reach (record_failure cb t).1
  | execute {cb : CircuitBreaker} (now : ℚ) : Reach cb → Reach (can_execute cb now).2

end CircuitBreaker

/-! Section: Data model (`src/models/product.py`) -/

/-- Embedding of `AlertType` enum. -/
inductive AlertType where
  | IN_STOCK
  | OUT_OF_STOCK
  | PRICE_CHANGE
  | NEW_PRODUCT
  deriving DecidableEq, Repr

/-- The `Product` dataclass. Timestamps are seconds (ℚ), price is an
optional rational. -/
structure Product where
  id : String
  name : String
  retailer : String
  url : String
  price : Option ℚ
  currency : String
  in_stock : Bool
  image_url : Option String
  category : String
  set_name : Option String
  pack_type : String
  last_checked : Option ℚ
  last_in_stock : Option ℚ
  created_at : Option ℚ
  deriving DecidableEq, Repr

/-- Embedding of `Product.__eq__`: two products are equal exactly when their `id` fields
are equal (`src/models/product.py`, lines 44-47). -/
def productEq (a b : Product) : Bool :=
  a.id == b.id

/-- The `StockAlert` dataclass. -/
structure StockAlert where
  product : Product
  alert_type : AlertType
  timestamp : ℚ
  previous_status : Option Bool
  previous_price : Option ℚ
  message : Option String
  sent : Bool
  deriving DecidableEq, Repr

/-! Section: Database rows and operations (`src/services/database.py`) -/

/-- A row of the `products` table (columns in `CREATE TABLE products`).
`in_stock` is the stored INTEGER; `created_at` is the value set by the
DEFAULT CURRENT_TIMESTAMP clause when the INSERT omits the column. -/
structure ProductRow where
  id : String
  name : String
  retailer : String
  url : String
  price : Option ℚ
  currency : String
  in_stock : ℤ
  image_url : Option String
  category : String
  set_name : Option String
  pack_type : String
  last_checked : Option ℚ
  last_in_stock : Option ℚ
  created_at : ℚ
  deriving DecidableEq, Repr

/-- A row of the `alerts` table. -/
structure AlertRow where
  id : ℕ
  product_id : String
  alert_type : AlertType
  timestamp : ℚ
  previous_status : Option ℤ
  previous_price : Option ℚ
  message : Option String
  sent : ℤ
  deriving DecidableEq, Repr

/-- A row of the `stock_history` table. -/
structure HistoryRow where
  product_id : String
  in_stock : ℤ
  price : Option ℚ
  timestamp : ℚ
  deriving DecidableEq, Repr

/-- The persistent state the scheduler pipeline touches: the `products`,
`alerts` and `stock_history` tables. -/
structure DbState where
  products : List ProductRow
  alerts : List AlertRow
  history : List HistoryRow
  deriving DecidableEq, Repr

/-- Python `x or default` on strings: the default when `x` is falsy
(the empty string), else `x`. -/
def pyStrOr (x default : String) : String :=
  if x = "" then default else x

/-- The row written by `Database.save_product` (INSERT OR REPLACE listing all
columns except `created_at`, which therefore takes DEFAULT CURRENT_TIMESTAMP,
modelled as the current time `now`). -/
def productToRow (now : ℚ) (p : Product) : ProductRow :=
  { id := p.id
    name := p.name
    retailer := p.retailer
    url := p.url
    price := p.price
    currency := p.currency
    in_stock := if p.in_stock then 1 else 0
    image_url := p.image_url
    category := p.category
    set_name := p.set_name
    pack_type := p.pack_type
    last_checked := p.last_checked
    last_in_stock := p.last_in_stock
    created_at := now }

/-- Embedding of `Database._row_to_product`: rebuild a `Product` from a row, applying the
`or` defaults of the source (`row[5] or "AUD"`, `row[8] or the empty string`,
`row[10] or "box"`) and `bool(row[6])`. -/
def rowToProduct (r : ProductRow) : Product :=
  { id := r.id
    name := r.name
    retailer := r.retailer
    url := r.url
    price := r.price
    currency := pyStrOr r.currency "AUD"
    in_stock := r.in_stock != 0
    image_url := r.image_url
    category := pyStrOr r.category ""
    set_name := r.set_name
    pack_type := pyStrOr r.pack_type "box"
    last_checked := r.last_checked
    last_in_stock := r.last_in_stock
    created_at := some r.created_at }

/-- Embedding of `Database.save_product`: INSERT OR REPLACE keyed on the primary key `id`
(the conflicting row, if any, is replaced). -/
def save_product (db : DbState) (now : ℚ) (p : Product) : DbState :=
  { db with
      products := productToRow now p :: db.products.filter (fun r => r.id != p.id) }

/-- Embedding of `Database.get_product`: `SELECT * FROM products WHERE id = ?`, first
matching row converted via `_row_to_product`. -/
def get_product (db : DbState) (product_id : String) : Option Product :=
  (db.products.find? (fun r => r.id == product_id)).map rowToProduct

/-- Embedding of `Database.save_stock_history`: append one history row stamped with
`datetime.now()`. -/
def save_stock_history (db : DbState) (now : ℚ) (p : Product) : DbState :=
  { db with
      history := db.history ++
        [{ product_id := p.id
           in_stock := if p.in_stock then 1 else 0
           price := p.price
           timestamp := now }] }

/-- Embedding of `Database.save_alert`: INSERT into `alerts` (AUTOINCREMENT id, modelled
as the current table length), returning the new row id. -/
def save_alert (db : DbState) (a : StockAlert) : DbState × ℕ :=
  let rowid := db.alerts.length
  ({ db with
       alerts := db.alerts ++
         [{ id := rowid
            product_id := a.product.id
            alert_type := a.alert_type
            timestamp := a.timestamp
            previous_status := a.previous_status.map (fun b => if b then 1 else 0)
            previous_price := a.previous_price
            message := a.message
            sent := if a.sent then 1 else 0 }] },
   rowid)

/-- Embedding of `Database.mark_alert_sent`: set `sent = 1` on the row with the given id. -/
def mark_alert_sent (db : DbState) (alert_id : ℕ) : DbState :=
  { db with
      alerts := db.alerts.map (fun r =>
        if r.id = alert_id then { r with sent := 1 } else r) }

/-- Embedding of `Database.get_last_alert_time`: timestamp of the most recent alert row
for the product **of the given type** (`WHERE product_id = ? AND
alert_type = ? ORDER BY timestamp DESC LIMIT 1`); the default argument for
`alert_type` is IN_STOCK. -/
def get_last_alert_time (alerts : List AlertRow) (product_id : String)
    (alert_type : AlertType) : Option ℚ :=
  ((alerts.filter (fun r =>
      r.product_id == product_id && decide (r.alert_type = alert_type))).map
    (fun r => r.timestamp)).max?

/-- Embedding of `Database.should_send_alert`: true when no prior alert (of the default
type, IN_STOCK) exists, or when strictly more than `cooldown_seconds` have
elapsed since the most recent such alert. -/
def should_send_alert (alerts : List AlertRow) (now : ℚ) (product_id : String)
    (cooldown_seconds : ℚ) : Bool :=
  match get_last_alert_time alerts product_id AlertType.IN_STOCK with
  | none => true
  | some last_alert => decide (now - last_alert > cooldown_seconds)

/-! Section: Scheduler diff/alert pipeline (`src/services/scheduler.py`) -/

/-- Embedding of `ALERT_COOLDOWN` (config default 300 seconds). -/
def ALERT_COOLDOWN : ℚ := 300

/-- Result of `StockScheduler._process_product`: the updated database state,
the alerts persisted via `save_alert` during the call (`emitted`), and the
alerts additionally dispatched through `_send_alert` (`sentAlerts`). -/
structure ProcResult where
  db : DbState
  emitted : List StockAlert
  sentAlerts : List StockAlert
  deriving DecidableEq, Repr

/-- Embedding of `StockScheduler._process_product` at time `now` (`datetime.now()`):

* a prior product exists and the listing came back in stock
  (`product.in_stock and not previous.in_stock`): consult the cooldown; when
  blocked, return early (nothing persisted); otherwise save an IN_STOCK
  alert, send it, mark it sent, then save the product and a history row;
* otherwise (`elif`) a price difference with a non-null new price saves a
  PRICE_CHANGE alert (no cooldown check, not dispatched), then product and
  history are saved;
* no prior product: no alert at all; the product (with `last_in_stock`
  stamped when in stock) and a history row are saved. -/
def process_product (db : DbState) (now : ℚ) (product : Product) : ProcResult :=
  let product := { product with last_checked := some now }
  match get_product db product.id with
  | some previous =>
      if product.in_stock && !previous.in_stock then
        if !(should_send_alert db.alerts now product.id ALERT_COOLDOWN) then
          { db := db, emitted := [], sentAlerts := [] }
        else
          let product := { product with last_in_stock := some now }
          let alert : StockAlert :=
            { product := product
              alert_type := AlertType.IN_STOCK
              timestamp := now
              previous_status := some previous.in_stock
              previous_price := none
              message := some ("Back in stock at " ++ product.retailer ++ "!")
              sent := false }
          let saved := save_alert db alert
          let db := mark_alert_sent saved.1 saved.2
          let db := save_product db now product
          let db := save_stock_history db now product
          { db := db, emitted := [alert], sentAlerts := [alert] }
      else if decide (product.price ≠ previous.price) && product.price.isSome then
        let alert : StockAlert :=
          { product := product
            alert_type := AlertType.PRICE_CHANGE
            timestamp := now
            previous_status := none
            previous_price := previous.price
            message := none
            sent := false }
        let saved := save_alert db alert
        let db := save_product saved.1 now product
        let db := save_stock_history db now product
        { db := db, emitted := [alert], sentAlerts := [] }
      else
        let db := save_product db now product
        let db := save_stock_history db now product
        { db := db, emitted := [], sentAlerts := [] }
  | none =>
      let product :=
        if product.in_stock then { product with last_in_stock := some now } else product
      let db := save_product db now product
      let db := save_stock_history db now product
      { db := db, emitted := [], sentAlerts := [] }

/-! Section: Dead-letter queue (`src/services/dead_letter_queue.py`) -/

/-- A row of the `failed_alerts` table (the `FailedAlert` dataclass fields). -/
structure FailedAlertRow where
  id : ℕ
  product_id : String
  alert_type : AlertType
  timestamp : ℚ
  error_message : String
  retry_count : ℕ
  last_retry : Option ℚ
  resolved : Bool
  deriving DecidableEq, Repr

/-- Embedding of `DeadLetterQueue.get_retryable_alerts`: rows with `resolved = 0`,
`retry_count < max_retries`, and `last_retry` NULL or strictly before
`now - retry_delay`, ordered by `timestamp` ascending. -/
def get_retryable_alerts (rows : List FailedAlertRow) (max_retries : ℕ)
    (retry_delay : ℚ) (now : ℚ) : List FailedAlertRow :=
  let cutoff := now - retry_delay
  (rows.filter (fun r =>
      !r.resolved && decide (r.retry_count < max_retries) &&
        (match r.last_retry with
         | none => true
         | some t => decide (t < cutoff)))).mergeSort
    (fun a b => decide (a.timestamp ≤ b.timestamp))

/-! Section: Booster-box keyword filter (`src/config.py`, `src/scrapers/base.py`) -/

/-- Embedding of `BOOSTER_BOX_KEYWORDS` from `src/src/config.py`. -/
def BOOSTER_BOX_KEYWORDS : List String :=
  ["booster box", "booster display", "booster case", "display box",
   "sealed box", "box 36", "box 24"]

/-- Embedding of `EXCLUSION_KEYWORDS` from `src/src/config.py` (imported by the scrapers
as the exclusion list). -/
def EXCLUSION_KEYWORDS : List String :=
  ["single", "sleeve", "binder", "playmat", "deck box", "card protector",
   "top loader", "graded", "psa", "cgc", "tin", "blister", "promo"]

/-- Python substring test `needle in hay` on character lists: some
contiguous run of `hay` equals `needle` (true for the empty needle). -/
def subList (needle : List Char) : List Char → Bool
  | [] => needle.isEmpty
  | c :: rest => needle.isPrefixOf (c :: rest) || subList needle rest

/-- Python `kw in name`: substring containment on strings. -/
def strContains (hay kw : String) : Bool :=
  subList kw.data hay.data

/-- Python `name.lower()`: character-wise lowering (the keywords involved
are ASCII). -/
def pyToLower (s : String) : String := ⟨s.data.map Char.toLower⟩

/-- Embedding of `BaseScraper._is_booster_box` (`src/src/scrapers/base.py`, lines
124-138): lower-case the name; any exclusion keyword rejects; otherwise any
booster-box keyword accepts; otherwise reject. -/
def is_booster_box (name : String) : Bool :=
  let name_lower := pyToLower name
  if EXCLUSION_KEYWORDS.any (fun kw => strContains name_lower kw) then
    false
  else
    BOOSTER_BOX_KEYWORDS.any (fun kw => strContains name_lower kw)

/-- The listing-selection loop of `BaseScraper.search_products`
(`src/scrapers/base.py`, lines 210-217): each parsed item yields an optional
product, and a product is appended only when parsing succeeded and the
booster-box filter accepts its name. -/
def search_products (parsed_items : List (Option Product)) : List Product :=
  (parsed_items.filterMap id).filter (fun p => is_booster_box p.name)

/-! Section: Circuit breaker theorems -/

namespace CircuitBreaker

/-- Unfolding one step of `applyFailures`. -/
lemma applyFailures_cons (cb : CircuitBreaker) (t : ℚ) (ts : List ℚ) :
    applyFailures cb (t :: ts) = applyFailures (record_failure cb t).1 ts := rfl

/-- Invariant of failure-only runs: starting from a state whose `state`
field is determined by the failure count, the count grows by the number of
calls and the state stays determined by it. -/
lemma applyFailures_spec (times : List ℚ) (cb : CircuitBreaker)
    (h : cb.state =
      if cb.failure_threshold ≤ cb.failures ∧ 0 < cb.failures then
        CircuitState.OPEN else CircuitState.CLOSED) :
    (applyFailures cb times).failures = cb.failures + times.length ∧
    (applyFailures cb times).failure_threshold = cb.failure_threshold ∧
    (applyFailures cb times).state =
      (if cb.failure_threshold ≤ cb.failures + times.length ∧
          0 < cb.failures + times.length then
        CircuitState.OPEN else CircuitState.CLOSED) := by
  induction times generalizing cb with
  | nil => simpa [applyFailures] using h
  | cons t ts ih =>
      rw [applyFailures_cons]
      simp only [List.length_cons]
      have hlen : cb.failures + 1 + ts.length = cb.failures + (ts.length + 1) := by omega
      by_cases hth : cb.failure_threshold ≤ cb.failures + 1
      · have hrec : (record_failure cb t).1 =
            { cb with failures := cb.failures + 1, last_failure_time := some t,
                      state := CircuitState.OPEN } := by
          simp [record_failure, hth]
        rw [hrec]
        obtain ⟨h1, h2, h3⟩ := ih
          { cb with failures := cb.failures + 1, last_failure_time := some t,
                    state := CircuitState.OPEN }
          (by dsimp only; simp [hth])
        dsimp only at h1 h2 h3
        rw [hlen] at h1 h3
        exact ⟨h1, h2, h3⟩
      · have hrec : (record_failure cb t).1 =
            { cb with failures := cb.failures + 1, last_failure_time := some t } := by
          simp [record_failure, hth]
        rw [hrec]
        have hstate : cb.state = CircuitState.CLOSED := by
          rw [h]
          have hnot : ¬(cb.failure_threshold ≤ cb.failures ∧ 0 < cb.failures) := by omega
          simp [hnot]
        obtain ⟨h1, h2, h3⟩ := ih
          { cb with failures := cb.failures + 1, last_failure_time := some t }
          (by
            dsimp only
            have hnot : ¬(cb.failure_threshold ≤ cb.failures + 1 ∧
                0 < cb.failures + 1) := fun hand => hth hand.1
            simp only [hnot, if_false]
            exact hstate)
        dsimp only at h1 h2 h3
        rw [hlen] at h1 h3
        exact ⟨h1, h2, h3⟩

/-- Reachable breakers that are not CLOSED carry at least
`failure_threshold` failures. -/
lemma reach_threshold_le_failures {cb : CircuitBreaker} (hr : Reach cb) :
    cb.state ≠ CircuitState.CLOSED → cb.failure_threshold ≤ cb.failures := by
  induction hr with
  | init threshold timeout =>
      intro h
      simp [CircuitBreaker.init] at h
  | success h ih =>
      intro hc
      simp [record_success] at hc
  | failure t h ih =>
      rename_i cb
      intro hc
      by_cases hth : cb.failure_threshold ≤ cb.failures + 1
      · simp [record_failure, hth]
      · simp only [record_failure, hth, if_neg, not_false_iff] at hc ⊢
        have := ih hc
        omega
  | execute now h ih =>
      rename_i cb
      intro hc
      rcases hstate : cb.state with _ | _ | _
      · simp only [can_execute, hstate] at hc
        exact absurd rfl hc
      · rcases hlast : cb.last_failure_time with _ | t
        · simp only [can_execute, hstate, hlast] at hc ⊢
          exact ih (by rw [hstate]; simp)
        · by_cases htime : cb.recovery_timeout ≤ now - t
          · simp only [can_execute, hstate, hlast, htime, if_pos] at hc ⊢
            exact ih (by rw [hstate]; simp)
          · simp only [can_execute, hstate, hlast, htime, if_neg, not_false_iff] at hc ⊢
            exact ih (by rw [hstate]; simp)
      · simp only [can_execute, hstate] at hc ⊢
        exact ih (by rw [hstate]; simp)

/-- C4 (counterexample): the breaker in the code uses the dataclass default
`recovery_timeout = 60`, not the config value 300 (which is never passed to
`CircuitBreaker()`). A default breaker opened by five failures at time 0
reports `can_execute = true` already at time 100, although 100 - 0 < 300,
so the claimed 300-second window is violated at this input. -/
theorem can_execute_default_timeout_counterexample :
    (applyFailures mkDefault [0, 0, 0, 0, 0]).state = CircuitState.OPEN ∧
    (applyFailures mkDefault [0, 0, 0, 0, 0]).last_failure_time = some 0 ∧
    ((100 : ℚ) - 0 < 300) ∧
    (can_execute (applyFailures mkDefault [0, 0, 0, 0, 0]) 100).1 = true := by
  have hcb : applyFailures mkDefault [0, 0, 0, 0, 0] =
      ⟨5, 60, 5, some 0, CircuitState.OPEN⟩ := rfl
  refine ⟨rfl, rfl, by norm_num, ?_⟩
  rw [hcb]
  simp only [can_execute]
  norm_num

/-- C4 (amended): when the breaker is OPEN with `last_failure_time = t`,
`can_execute` at `now` returns false (state unchanged) whenever
`now - t < recovery_timeout`, and true with a transition to HALF_OPEN
whenever `now - t ≥ recovery_timeout`; the recovery timeout of the
default-constructed breaker actually used by the code is 60 seconds. -/
theorem can_execute_open_gate (cb : CircuitBreaker) (now t : ℚ)
    (hs : cb.state = CircuitState.OPEN) (hl : cb.last_failure_time = some t) :
    (now - t < cb.recovery_timeout → can_execute cb now = (false, cb)) ∧
    (cb.recovery_timeout ≤ now - t →
      can_execute cb now = (true, { cb with state := CircuitState.HALF_OPEN })) ∧
    mkDefault.recovery_timeout = 60 := by
  refine ⟨?_, ?_, rfl⟩
  · intro h
    have hn : ¬ cb.recovery_timeout ≤ now - t := not_le.mpr h
    simp [can_execute, hs, hl, hn]
  · intro h
    simp [can_execute, hs, hl, h]

/-- Witness for `can_execute_open_gate` at a concrete open breaker. -/
theorem can_execute_open_gate_witness :
    can_execute (applyFailures mkDefault [0, 0, 0, 0, 0]) 10 =
      (false, applyFailures mkDefault [0, 0, 0, 0, 0]) ∧
    can_execute (applyFailures mkDefault [0, 0, 0, 0, 0]) 60 =
      (true, { applyFailures mkDefault [0, 0, 0, 0, 0] with
                 state := CircuitState.HALF_OPEN }) := by
  have h10 := can_execute_open_gate (applyFailures mkDefault [0, 0, 0, 0, 0])
    10 0 rfl rfl
  have h60 := can_execute_open_gate (applyFailures mkDefault [0, 0, 0, 0, 0])
    60 0 rfl rfl
  exact ⟨h10.1 (by norm_num : (10 : ℚ) - 0 < 60),
         h60.2.1 (by norm_num : (60 : ℚ) ≤ 60 - 0)⟩

/-- C5: from a zero-failure CLOSED state (the initial state, or the state
right after `record_success`), a sequence of `record_failure` calls leaves
the breaker OPEN exactly when the number of calls reaches the (positive)
`failure_threshold`; and `record_success` always resets `failures` to 0 and
the state to CLOSED. -/
theorem failures_open_iff (cb : CircuitBreaker) (times : List ℚ)
    (hs : cb.state = CircuitState.CLOSED) (hf : cb.failures = 0)
    (hth : 0 < cb.failure_threshold) :
    ((applyFailures cb times).state = CircuitState.OPEN ↔
      cb.failure_threshold ≤ times.length) ∧
    (∀ cb2 : CircuitBreaker,
      (record_success cb2).failures = 0 ∧
      (record_success cb2).state = CircuitState.CLOSED) := by
  refine ⟨?_, fun cb2 => ⟨rfl, rfl⟩⟩
  obtain ⟨h1, h2, h3⟩ := applyFailures_spec times cb (by rw [hs, hf]; simp)
  rw [h3, hf]
  split_ifs with hcond
  · exact ⟨fun _ => by omega, fun _ => rfl⟩
  · exact ⟨fun habs => absurd habs (by simp),
           fun hle => absurd ⟨by omega, by omega⟩ hcond⟩

/-- Witness for `failures_open_iff`: the default breaker opens after exactly
five failures. -/
theorem failures_open_iff_witness :
    ((applyFailures mkDefault [1, 2, 3, 4, 5]).state = CircuitState.OPEN ↔
      mkDefault.failure_threshold ≤ 5) ∧
    (record_success (applyFailures mkDefault [1, 2, 3, 4, 5])).failures = 0 ∧
    (record_success (applyFailures mkDefault [1, 2, 3, 4, 5])).state =
      CircuitState.CLOSED := by
  have h := failures_open_iff mkDefault [1, 2, 3, 4, 5] rfl rfl (by decide)
  exact ⟨h.1, h.2 (applyFailures mkDefault [1, 2, 3, 4, 5])⟩

/-- Embedding of `Reach` is closed under a run of failures. -/
lemma reach_applyFailures {cb : CircuitBreaker} (h : Reach cb) :
    ∀ ts : List ℚ, Reach (applyFailures cb ts) := by
  intro ts
  induction ts generalizing cb with
  | nil => exact h
  | cons t ts ih =>
      rw [applyFailures_cons]
      exact ih (Reach.failure t h)

/-- C6: in every reachable HALF_OPEN breaker state, `can_execute` returns
true without changing the state, one `record_failure` immediately reopens
the circuit (this uses the reachability invariant that a HALF_OPEN breaker
carries at least `failure_threshold` failures), and one `record_success`
closes it. -/
theorem half_open_behavior (cb : CircuitBreaker) (hr : Reach cb)
    (hs : cb.state = CircuitState.HALF_OPEN) :
    (∀ now : ℚ, can_execute cb now = (true, cb)) ∧
    (∀ t : ℚ, ((record_failure cb t).1).state = CircuitState.OPEN) ∧
    (record_success cb).state = CircuitState.CLOSED := by
  have hinv := reach_threshold_le_failures hr (by rw [hs]; simp)
  refine ⟨?_, ?_, rfl⟩
  · intro now
    simp [can_execute, hs]
  · intro t
    have hle : cb.failure_threshold ≤ cb.failures + 1 := by omega
    simp [record_failure, hle]

/-- Witness for `half_open_behavior` at a concrete reachable HALF_OPEN
state: default breaker, five failures at time 0, then `can_execute` at
time 60. -/
theorem half_open_behavior_witness :
    can_execute ((can_execute (applyFailures mkDefault [0, 0, 0, 0, 0]) 60).2) 61 =
      (true, (can_execute (applyFailures mkDefault [0, 0, 0, 0, 0]) 60).2) ∧
    ((record_failure ((can_execute (applyFailures mkDefault [0, 0, 0, 0, 0]) 60).2) 61).1).state =
      CircuitState.OPEN ∧
    (record_success ((can_execute (applyFailures mkDefault [0, 0, 0, 0, 0]) 60).2)).state =
      CircuitState.CLOSED := by
  have hr : Reach ((can_execute (applyFailures mkDefault [0, 0, 0, 0, 0]) 60).2) :=
    Reach.execute 60 (reach_applyFailures
      (Reach.init default_failure_threshold default_recovery_timeout) [0, 0, 0, 0, 0])
  have hhalf : (can_execute (applyFailures mkDefault [0, 0, 0, 0, 0]) 60).2 =
      ⟨5, 60, 5, some 0, CircuitState.HALF_OPEN⟩ := by
    have hcb : applyFailures mkDefault [0, 0, 0, 0, 0] =
        ⟨5, 60, 5, some 0, CircuitState.OPEN⟩ := rfl
    rw [hcb]
    simp only [can_execute]
    norm_num
  have h := half_open_behavior _ hr (by rw [hhalf])
  exact ⟨h.1 61, h.2.1 61, h.2.2⟩

end CircuitBreaker

/-! Section: Cooldown gate theorems -/

/-- C7 (counterexample): `should_send_alert` consults only IN_STOCK alerts
(`get_last_alert_time` is called with its default `alert_type`), so after a
PRICE_CHANGE alert recorded at time 0 the query at time 0 + 299 returns
true, where the claim requires false for any alert type. -/
theorem should_send_alert_ignores_price_alert :
    should_send_alert
      [{ id := 0, product_id := "p1", alert_type := AlertType.PRICE_CHANGE,
         timestamp := 0, previous_status := none, previous_price := some 50,
         message := none, sent := 0 }]
      (0 + 299) "p1" 300 = true := rfl

/-- C7 (amended): if the most recent IN_STOCK alert for the product is at
time T, then `should_send_alert` with the default 300-second cooldown
returns false at T + 299 and true at T + 301; and whenever no prior
IN_STOCK alert exists for the product it returns true. -/
theorem should_send_alert_boundary (alerts : List AlertRow) (pid : String) (T : ℚ)
    (h : get_last_alert_time alerts pid AlertType.IN_STOCK = some T) :
    should_send_alert alerts (T + 299) pid 300 = false ∧
    should_send_alert alerts (T + 301) pid 300 = true ∧
    ∀ (alerts2 : List AlertRow) (pid2 : String) (now : ℚ),
      get_last_alert_time alerts2 pid2 AlertType.IN_STOCK = none →
      should_send_alert alerts2 now pid2 300 = true := by
  refine ⟨?_, ?_, ?_⟩
  · simp only [should_send_alert, h]
    apply decide_eq_false
    have heq : T + 299 - T = (299 : ℚ) := by ring
    rw [heq]
    norm_num
  · simp only [should_send_alert, h]
    apply decide_eq_true
    have heq : T + 301 - T = (301 : ℚ) := by ring
    rw [heq]
    norm_num
  · intro alerts2 pid2 now hnone
    simp only [should_send_alert, hnone]

/-- Witness for `should_send_alert_boundary` at a one-row alert table. -/
theorem should_send_alert_boundary_witness :
    should_send_alert
      [{ id := 0, product_id := "p1", alert_type := AlertType.IN_STOCK,
         timestamp := 0, previous_status := some 0, previous_price := none,
         message := none, sent := 1 }]
      (0 + 299) "p1" 300 = false ∧
    should_send_alert
      [{ id := 0, product_id := "p1", alert_type := AlertType.IN_STOCK,
         timestamp := 0, previous_status := some 0, previous_price := none,
         message := none, sent := 1 }]
      (0 + 301) "p1" 300 = true := by
  have h := should_send_alert_boundary
    [{ id := 0, product_id := "p1", alert_type := AlertType.IN_STOCK,
       timestamp := 0, previous_status := some 0, previous_price := none,
       message := none, sent := 1 }]
    "p1" 0 rfl
  exact ⟨h.1, h.2.1⟩

/-- C3 (counterexample): alert types do not share one cooldown key. A
PRICE_CHANGE alert is recorded at time 0 for the product, yet at time 1
(1 - 0 < 300 seconds later) an IN_STOCK transition for the same product still
dispatches an alert: the cooldown check ignores the price alert. -/
theorem cooldown_shared_key_counterexample :
    (process_product
      (save_product ⟨[], [], []⟩ 0
        ⟨"id1", "Booster Box", "EB Games", "http://x", some 50, "AUD", false,
         none, "pokemon", none, "box", none, none, none⟩)
      0
      ⟨"id1", "Booster Box", "EB Games", "http://x", some 60, "AUD", false,
       none, "pokemon", none, "box", none, none, none⟩).emitted.map
        (fun a => a.alert_type) = [AlertType.PRICE_CHANGE] ∧
    (process_product
      (process_product
        (save_product ⟨[], [], []⟩ 0
          ⟨"id1", "Booster Box", "EB Games", "http://x", some 50, "AUD", false,
           none, "pokemon", none, "box", none, none, none⟩)
        0
        ⟨"id1", "Booster Box", "EB Games", "http://x", some 60, "AUD", false,
         none, "pokemon", none, "box", none, none, none⟩).db
      1
      ⟨"id1", "Booster Box", "EB Games", "http://x", some 60, "AUD", true,
       none, "pokemon", none, "box", none, none, none⟩).sentAlerts.map
        (fun a => (a.alert_type, a.timestamp)) = [(AlertType.IN_STOCK, 1)] ∧
    ((1 : ℚ) - 0 < 300) := by
  refine ⟨rfl, rfl, by norm_num⟩

/-- C3 (amended): the cooldown key is the product, but only alerts of type
IN_STOCK count: recording an alert of any other type leaves
`should_send_alert` unchanged, while a recent IN_STOCK alert (within the
cooldown window) makes it false. -/
theorem cooldown_in_stock_only (alerts : List AlertRow) (row : AlertRow)
    (pid : String) (now c T : ℚ)
    (hrow : row.alert_type ≠ AlertType.IN_STOCK) :
    (should_send_alert (alerts ++ [row]) now pid c =
      should_send_alert alerts now pid c) ∧
    (get_last_alert_time alerts pid AlertType.IN_STOCK = some T →
      now - T ≤ c → should_send_alert alerts now pid c = false) := by
  constructor
  · have hfilter : get_last_alert_time (alerts ++ [row]) pid AlertType.IN_STOCK =
        get_last_alert_time alerts pid AlertType.IN_STOCK := by
      simp [get_last_alert_time, List.filter_append, hrow]
    simp only [should_send_alert, hfilter]
  · intro h hle
    simp only [should_send_alert, h]
    exact decide_eq_false (not_lt.mpr hle)

/-- Witness for `cooldown_in_stock_only`. -/
theorem cooldown_in_stock_only_witness :
    (should_send_alert
      ([{ id := 0, product_id := "p1", alert_type := AlertType.IN_STOCK,
          timestamp := 0, previous_status := some 0, previous_price := none,
          message := none, sent := 1 }] ++
       [{ id := 1, product_id := "p1", alert_type := AlertType.PRICE_CHANGE,
          timestamp := 50, previous_status := none, previous_price := some 50,
          message := none, sent := 0 }])
      100 "p1" 300 =
     should_send_alert
      [{ id := 0, product_id := "p1", alert_type := AlertType.IN_STOCK,
         timestamp := 0, previous_status := some 0, previous_price := none,
         message := none, sent := 1 }]
      100 "p1" 300) ∧
    should_send_alert
      [{ id := 0, product_id := "p1", alert_type := AlertType.IN_STOCK,
         timestamp := 0, previous_status := some 0, previous_price := none,
         message := none, sent := 1 }]
      100 "p1" 300 = false := by
  have h := cooldown_in_stock_only
    [{ id := 0, product_id := "p1", alert_type := AlertType.IN_STOCK,
       timestamp := 0, previous_status := some 0, previous_price := none,
       message := none, sent := 1 }]
    { id := 1, product_id := "p1", alert_type := AlertType.PRICE_CHANGE,
      timestamp := 50, previous_status := none, previous_price := some 50,
      message := none, sent := 0 }
    "p1" 100 300 0 (by decide)
  exact ⟨h.1, h.2 rfl (by norm_num)⟩

/-! Section: Product persistence round trip -/

/-- Reading back right after `save_product` yields the reconstruction of
the freshly written row. -/
lemma get_product_save (db : DbState) (now : ℚ) (p : Product) :
    get_product (save_product db now p) p.id =
      some (rowToProduct (productToRow now p)) := by
  unfold get_product save_product
  dsimp only
  rw [List.find?_cons_of_pos]
  · rfl
  · simp [productToRow]

/-- C9: for every product `p` (any field values, the null price included)
and every database state, saving `p` and then fetching by its key returns a
product that is equal to `p` in the sense of `Product.__eq__` (which
compares the `id` fields). -/
theorem save_get_roundtrip (db : DbState) (now : ℚ) (p : Product) :
    ∃ q : Product,
      get_product (save_product db now p) p.id = some q ∧ productEq q p = true := by
  refine ⟨rowToProduct (productToRow now p), get_product_save db now p, ?_⟩
  simp [productEq, rowToProduct, productToRow]

/-! Section: Dead-letter queue theorems -/

/-- C8: the retryable query returns exactly the failed-delivery rows with
`resolved = false`, `retry_count < max_retries`, and `last_retry` either
NULL or strictly older than the cutoff `now - retry_delay`; in particular a
row with `retry_count = max_retries` is never returned, whatever its
`last_retry`. -/
theorem get_retryable_alerts_spec (rows : List FailedAlertRow) (max_retries : ℕ)
    (retry_delay now : ℚ) (r : FailedAlertRow) :
    (r ∈ get_retryable_alerts rows max_retries retry_delay now ↔
      (r ∈ rows ∧ r.resolved = false ∧ r.retry_count < max_retries ∧
        (r.last_retry = none ∨
          ∃ t, r.last_retry = some t ∧ t < now - retry_delay))) ∧
    (r.retry_count = max_retries →
      r ∉ get_retryable_alerts rows max_retries retry_delay now) := by
  have hmem : r ∈ get_retryable_alerts rows max_retries retry_delay now ↔
      (r ∈ rows ∧ r.resolved = false ∧ r.retry_count < max_retries ∧
        (r.last_retry = none ∨
          ∃ t, r.last_retry = some t ∧ t < now - retry_delay)) := by
    unfold get_retryable_alerts
    rw [List.mem_mergeSort, List.mem_filter]
    constructor
    · rintro ⟨hr, hcond⟩
      simp only [Bool.and_eq_true, Bool.not_eq_true', decide_eq_true_eq] at hcond
      refine ⟨hr, hcond.1.1, hcond.1.2, ?_⟩
      rcases hlast : r.last_retry with _ | t
      · exact Or.inl rfl
      · right
        refine ⟨t, rfl, ?_⟩
        have := hcond.2
        rw [hlast] at this
        simpa using this
    · rintro ⟨hr, hres, hcount, hlast⟩
      refine ⟨hr, ?_⟩
      simp only [Bool.and_eq_true, Bool.not_eq_true', decide_eq_true_eq]
      refine ⟨⟨hres, hcount⟩, ?_⟩
      rcases hlast with hnone | ⟨t, hsome, ht⟩
      · rw [hnone]
      · rw [hsome]
        simpa using ht
  refine ⟨hmem, ?_⟩
  intro hcount hmem2
  have := (hmem.mp hmem2).2.2.1
  omega

/-- Witness for `get_retryable_alerts_spec`: an exhausted row
(`retry_count = max_retries = 3`) is not returned even with a NULL
`last_retry`. -/
theorem get_retryable_alerts_spec_witness :
    { id := 7, product_id := "p1", alert_type := AlertType.IN_STOCK,
      timestamp := 0, error_message := "boom", retry_count := 3,
      last_retry := none, resolved := false : FailedAlertRow } ∉
      get_retryable_alerts
        [{ id := 7, product_id := "p1", alert_type := AlertType.IN_STOCK,
           timestamp := 0, error_message := "boom", retry_count := 3,
           last_retry := none, resolved := false }]
        3 300 1000 := by
  have h := get_retryable_alerts_spec
    [{ id := 7, product_id := "p1", alert_type := AlertType.IN_STOCK,
       timestamp := 0, error_message := "boom", retry_count := 3,
       last_retry := none, resolved := false }]
    3 300 1000
    { id := 7, product_id := "p1", alert_type := AlertType.IN_STOCK,
      timestamp := 0, error_message := "boom", retry_count := 3,
      last_retry := none, resolved := false }
  exact h.2 rfl

/-! Section: Booster-box filter theorems -/

/-- C10: the filter accepts a name exactly when its lower-cased form
contains some booster-box keyword and no exclusion keyword (so exclusion
takes precedence), and every product returned by the search loop passes the
filter. -/
theorem is_booster_box_spec (name : String) :
    (is_booster_box name = true ↔
      ((∃ kw ∈ BOOSTER_BOX_KEYWORDS, strContains (pyToLower name) kw = true) ∧
        ∀ kw ∈ EXCLUSION_KEYWORDS, strContains (pyToLower name) kw = false)) ∧
    ∀ (parsed : List (Option Product)) (p : Product),
      p ∈ search_products parsed → is_booster_box p.name = true := by
  constructor
  · unfold is_booster_box
    by_cases hE : EXCLUSION_KEYWORDS.any
        (fun kw => strContains (pyToLower name) kw) = true
    · rw [if_pos hE]
      constructor
      · intro habs
        exact absurd habs (by simp)
      · rintro ⟨-, hall⟩
        obtain ⟨kw, hkw, hf⟩ := List.any_eq_true.mp hE
        rw [hall kw hkw] at hf
        exact absurd hf (by simp)
    · rw [if_neg hE]
      rw [List.any_eq_true]
      constructor
      · intro hex
        refine ⟨hex, ?_⟩
        intro kw hkw
        by_contra hne
        rw [Bool.not_eq_false] at hne
        exact hE (List.any_eq_true.mpr ⟨kw, hkw, hne⟩)
      · rintro ⟨hex, -⟩
        exact hex
  · intro parsed p hp
    exact (List.mem_filter.mp hp).2

/-- Witness for `is_booster_box_spec`: a concrete accepted name. -/
theorem is_booster_box_spec_witness :
    (∃ kw ∈ BOOSTER_BOX_KEYWORDS,
      strContains (pyToLower "Pokemon 151 Booster Box") kw = true) ∧
    ∀ kw ∈ EXCLUSION_KEYWORDS,
      strContains (pyToLower "Pokemon 151 Booster Box") kw = false :=
  (is_booster_box_spec "Pokemon 151 Booster Box").1.mp (by decide)

/-! Section: Diff-engine theorems -/

/-- C1 (counterexample): an in-stock listing with no prior persisted
product yields zero persisted alerts — the claimed NEW stock event is never
emitted by `_process_product` (the no-prior branch only logs and saves the
baseline). -/
theorem new_product_no_event_counterexample :
    (process_product ⟨[], [], []⟩ 0
      ⟨"id1", "Booster Box", "EB Games", "http://x", some 50, "AUD", true,
       none, "pokemon", none, "box", none, none, none⟩).emitted = [] ∧
    get_product (⟨[], [], []⟩ : DbState) "id1" = none ∧
    (⟨"id1", "Booster Box", "EB Games", "http://x", some 50, "AUD", true,
      none, "pokemon", none, "box", none, none, none⟩ : Product).in_stock = true := by
  exact ⟨rfl, rfl, rfl⟩

/-- C1 (amended): with no prior persisted product, processing emits no
stock event at all — whether or not the listing is in stock — and still
creates the baseline `Product` row. -/
theorem no_prior_baseline (db : DbState) (now : ℚ) (p : Product)
    (h : get_product db p.id = none) :
    (process_product db now p).emitted = [] ∧
    (process_product db now p).sentAlerts = [] ∧
    ∃ q : Product,
      get_product (process_product db now p).db p.id = some q ∧ q.id = p.id := by
  unfold process_product
  dsimp only
  rw [h]
  refine ⟨rfl, rfl, ?_⟩
  by_cases hin : p.in_stock = true
  · rw [if_pos hin]
    exact ⟨rowToProduct (productToRow now
        { p with last_checked := some now, last_in_stock := some now }),
      get_product_save db now _, rfl⟩
  · rw [if_neg hin]
    exact ⟨rowToProduct (productToRow now { p with last_checked := some now }),
      get_product_save db now _, rfl⟩

/-- Witness for `no_prior_baseline` at the empty database. -/
theorem no_prior_baseline_witness :
    (process_product ⟨[], [], []⟩ 0
      ⟨"id2", "One Piece Booster Box", "Kmart", "http://y", none, "AUD", false,
       none, "one_piece", none, "box", none, none, none⟩).emitted = [] ∧
    ∃ q : Product,
      get_product (process_product ⟨[], [], []⟩ 0
        ⟨"id2", "One Piece Booster Box", "Kmart", "http://y", none, "AUD", false,
         none, "one_piece", none, "box", none, none, none⟩).db "id2" = some q ∧
      q.id = "id2" := by
  have h := no_prior_baseline ⟨[], [], []⟩ 0
    ⟨"id2", "One Piece Booster Box", "Kmart", "http://y", none, "AUD", false,
     none, "one_piece", none, "box", none, none, none⟩ rfl
  exact ⟨h.1, h.2.2⟩

/-- C2 (counterexample): a listing whose price (60) differs from the prior
price (50), both non-null, that simultaneously transitions to in stock:
only the IN_STOCK alert is emitted, no PRICE_CHANGE — the two branches are
an if/elif, so the price event cannot co-occur with the stock event. -/
theorem price_change_not_co_occurring_counterexample :
    (process_product
      (save_product ⟨[], [], []⟩ 0
        ⟨"id1", "Booster Box", "EB Games", "http://x", some 50, "AUD", false,
         none, "pokemon", none, "box", none, none, none⟩)
      1
      ⟨"id1", "Booster Box", "EB Games", "http://x", some 60, "AUD", true,
       none, "pokemon", none, "box", none, none, none⟩).emitted.map
        (fun a => a.alert_type) = [AlertType.IN_STOCK] ∧
    (some (60 : ℚ) ≠ some (50 : ℚ)) := by
  exact ⟨rfl, by decide⟩

/-- C2 (amended): a PRICE_CHANGE alert carrying
`previousPrice = prior price` is emitted exactly on observations whose
price differs from the prior price with the new price non-null **and** that
do not trigger the IN_STOCK transition branch (the price alert is never
dispatched, only persisted). -/
theorem price_change_no_transition (db : DbState) (now : ℚ) (p prev : Product)
    (hprev : get_product db p.id = some prev)
    (htrans : (p.in_stock && !prev.in_stock) = false)
    (hne : p.price ≠ prev.price) (hsome : p.price.isSome = true) :
    (process_product db now p).emitted.map
        (fun a => (a.alert_type, a.previous_price)) =
      [(AlertType.PRICE_CHANGE, prev.price)] ∧
    (process_product db now p).sentAlerts = [] := by
  unfold process_product
  dsimp only
  rw [hprev]
  dsimp only
  have hcond : (decide (p.price ≠ prev.price) && p.price.isSome) = true := by
    rw [decide_eq_true hne, hsome]
    rfl
  have h1 : ¬((p.in_stock && !prev.in_stock) = true) := by
    rw [htrans]
    exact Bool.false_ne_true
  rw [if_neg h1, if_pos hcond]
  exact ⟨rfl, rfl⟩

/-- Witness for `price_change_no_transition`: prior in stock at 50, listing
still in stock at 60. -/
theorem price_change_no_transition_witness :
    (process_product
      (save_product ⟨[], [], []⟩ 0
        ⟨"id1", "Booster Box", "EB Games", "http://x", some 50, "AUD", true,
         none, "pokemon", none, "box", none, none, none⟩)
      1
      ⟨"id1", "Booster Box", "EB Games", "http://x", some 60, "AUD", true,
       none, "pokemon", none, "box", none, none, none⟩).emitted.map
        (fun a => (a.alert_type, a.previous_price)) =
      [(AlertType.PRICE_CHANGE, some 50)] := by
  have h := price_change_no_transition
    (save_product ⟨[], [], []⟩ 0
      ⟨"id1", "Booster Box", "EB Games", "http://x", some 50, "AUD", true,
       none, "pokemon", none, "box", none, none, none⟩)
    1
    ⟨"id1", "Booster Box", "EB Games", "http://x", some 60, "AUD", true,
     none, "pokemon", none, "box", none, none, none⟩
    (rowToProduct (productToRow 0
      ⟨"id1", "Booster Box", "EB Games", "http://x", some 50, "AUD", true,
       none, "pokemon", none, "box", none, none, none⟩))
    rfl rfl (by decide) rfl
  exact h.1

end ZackVision
